import Mathlib

/-!
Shallow embedding of `packages/starksheet-webapp/src/components/SheetTable/SheetTable.tsx`
(the `load` callback and the grid rendering of the `SheetTable` component), together
with the parts of its collaborators that the component observes.

Modelling conventions:
* Starknet field elements (`BN` values from the `starknet` js library) are `Nat`.
* A promise chain is modelled by its settled outcome: `Except Unit α` is a promise
  that either fulfils with an `α` or rejects.  `Promise.all` over a list fulfils
  with the list of values iff every member fulfils, and rejects otherwise; this is
  `mapE` below.
* External collaborators (`chainProvider.callContract`, `contract.renderCells`,
  `contract.getCell`, `getAbiForContract`, `hex2str`) are an environment record of
  oracles; the calls `load` issues are recorded in an event trace.
* Shared React state (`onsheet.sheets`, `appStatus.sheets`, `values`, the router
  location) is an explicit state record threaded through `load`.
-/

namespace Starksheet

/-- Sheet addresses are strings (hex addresses from the router params). -/
abbrev Addr := String

/-- `CellRendered` from `types`: result entry of `contract.renderCells()`.
The optional js `error` field is a `Bool` (absent = `false`). -/
structure CellRendered where
  id : Nat
  owner : Nat
  value : Nat
  error : Bool
deriving Repr, DecidableEq

/-- `CellData` from `types`: result of `contract.getCell(id)`. -/
structure CellData where
  contractAddress : Nat
  selector : Nat
  calldata : List Nat
deriving Repr, DecidableEq

/-- `Cell` from `types`: the spread-merge `{...cell, ..._cell, error: cell.error}`
of a rendered cell with its cell data. -/
structure Cell where
  id : Nat
  owner : Nat
  value : Nat
  error : Bool
  contractAddress : Nat
  selector : Nat
  calldata : List Nat
deriving Repr, DecidableEq

/-- A cell as stored into `values`: `{...cell, abi: abi[bn2hex(cell.selector)]}`.
An ABI fragment is opaque here (a `Nat` tag); the lookup may be absent (`none`),
as `abi[...]` may be `undefined` in js. -/
structure SheetCell extends Cell where
  abi : Option Nat
deriving Repr, DecidableEq

/-- `{...cell, ..._cell, error: cell.error}`: data fields come from `_cell`
(the `getCell` result), identity fields and `error` from the rendered cell. -/
def mergeCell (r : CellRendered) (d : CellData) : Cell :=
  { id := r.id, owner := r.owner, value := r.value, error := r.error,
    contractAddress := d.contractAddress, selector := d.selector,
    calldata := d.calldata }

/-- Modelled from the spec: `N_COL` from `config` is not part of the excerpt;
the repository renders a fixed 15-column grid. -/
def N_COL : Nat := 15

/-- Modelled from the spec: `N_ROW` from `config` is not part of the excerpt;
the repository renders a fixed 15-row grid. -/
def N_ROW : Nat := 15

/-- Modelled from the spec: `GRID_SIZE` from `config`; "the cell array for a
sheet, once populated, always has exactly GRID_SIZE entries indexed by
row-major position" over an `N_ROW` by `N_COL` grid. -/
def GRID_SIZE : Nat := N_COL * N_ROW

/-- Modelled from the spec: `RC_BOUND` from `utils/constants`, the Cairo
range-check bound `2^128`, the "reserved bound" below which a contract
address is an indirection into the grid. -/
def RC_BOUND : Nat := 2 ^ 128

/-- `defaultRenderedCell` (SheetTable.tsx line 25): placeholder rendered cell. -/
def defaultRenderedCell (tokenId : Nat) : CellRendered :=
  { id := tokenId, owner := 0, value := 0, error := false }

/-- `defaultCellData` (SheetTable.tsx line 31): placeholder cell data. -/
def defaultCellData (_tokenId : Nat) : CellData :=
  { contractAddress := RC_BOUND, selector := 0, calldata := [] }

/-- `{...defaultRenderedCell(i), ...defaultCellData(i)}` (line 157). -/
def defaultCell (i : Nat) : Cell :=
  mergeCell (defaultRenderedCell i) (defaultCellData i)

/-- `Sheet` from `types`: name/symbol metadata plus an optional calldata
payload marking a not-yet-deployed sheet. -/
structure Sheet where
  name : String
  symbol : String
  address : Addr
  calldata : Option (List Nat)
deriving Repr, DecidableEq

/-- One per-sheet entry of `appStatus.sheets`. -/
structure SheetStatus where
  loading : Bool
  error : Bool
  message : String
deriving Repr, DecidableEq

/-- Modelled from the spec: the default status a partial update applies to when
no status exists yet for the address ("AppStatus per sheet: loading flag,
error flag, status message"). -/
def defaultStatus : SheetStatus :=
  { loading := false, error := false, message := "" }

/-- A partial status object as passed to `updateSheetStatus`: absent fields
are left unchanged. -/
structure StatusUpdate where
  loading : Option Bool := none
  error : Option Bool := none
  message : Option String := none

/-- Merge a partial update into a status. -/
def applyUpdate (s : SheetStatus) (u : StatusUpdate) : SheetStatus :=
  { loading := u.loading.getD s.loading,
    error := u.error.getD s.error,
    message := u.message.getD s.message }

/-- The events `load` can cause against its collaborators. -/
inductive CallEvent where
  | callContract (contractAddress : Addr) (entrypoint : String)
  | renderCells
  | getCell (id : Nat)
  | getAbi (contractAddress : Nat)
deriving Repr, DecidableEq

/-- The environment of external collaborators, each modelled by its settled
outcome.  `getAbiForContract` yields the contract's ABI as a map from
selector to ABI fragment (`bn2hex` on both sides of the js lookup is an
injective encoding and is elided). -/
structure Env where
  nameCall : Except Unit Nat
  symbolCall : Except Unit Nat
  renderCells : Except Unit (List CellRendered)
  getCell : Nat → Except Unit CellData
  getAbiForContract : Nat → Except Unit (Nat → Option Nat)
  hex2str : Nat → String

/-- The shared state `load` reads and writes: `onsheet.sheets`,
`appStatus.sheets`, `values`, and the router location (`navigate`). -/
structure AppState where
  sheets : List Sheet
  statuses : Addr → Option SheetStatus
  values : Addr → Option (List SheetCell)
  route : String

/-- `updateSheetStatus(address, partial)` from `AppStatusContext`.
Modelled from the spec: the context merges the partial object into the
address's current status (the component relies on this: it updates single
fields such as `{loading: false}` without clobbering the others). -/
def updateSheetStatus (st : AppState) (addr : Addr) (u : StatusUpdate) : AppState :=
  { st with statuses := fun a =>
      if a = addr then some (applyUpdate ((st.statuses addr).getD defaultStatus) u)
      else st.statuses a }

/-- `appendSheet` from `OnsheetContext`. Modelled from the spec: registers the
sheet by appending it to the known sheet list. -/
def appendSheet (st : AppState) (s : Sheet) : AppState :=
  { st with sheets := st.sheets ++ [s] }

/-- `Promise.all(l.map f)`: fulfils with all values iff every member fulfils. -/
def mapE {α β : Type} (f : α → Except Unit β) : List α → Except Unit (List β)
  | [] => .ok []
  | a :: as =>
    match f a with
    | .error e => .error e
    | .ok b =>
      match mapE f as with
      | .error e => .error e
      | .ok bs => .ok (b :: bs)

/-- Read of key `i` from the object built by the reduce at lines 145-151:
`cells.reduce((prev, cell) => ({...prev, [parseInt(cell.id)]: cell}), {})`.
A later cell with the same id overwrites an earlier one, so the lookup
returns the last cell whose id is `i`. -/
def cellsById : List Cell → Nat → Option Cell
  | [], _ => none
  | c :: rest, i =>
    match cellsById rest i with
    | some c' => some c'
    | none => if c.id = i then some c else none

/-- Lines 153-161: `Array.from(Array(GRID_SIZE).keys()).map(i => _cells[i] || default)`. -/
def buildGrid (cs : List Cell) : List Cell :=
  (List.range GRID_SIZE).map (fun i => (cellsById cs i).getD (defaultCell i))

/-- Lines 163-167: `cell.contractAddress.lt(RC_BOUND) ?
array[cell.contractAddress.toNumber()].value : cell.contractAddress`.
An index outside the array gives `undefined` in js and the `.value` access
throws (as does `toNumber` on a BN above 2^53), rejecting the enclosing
promise: both are `Except.error ()`. -/
def resolvedContractAddress (array : List Cell) (c : Cell) : Except Unit Nat :=
  if c.contractAddress < RC_BOUND then
    match array.get? c.contractAddress with
    | some target => .ok target.value
    | none => .error ()
  else .ok c.contractAddress

/-- `await getAbiForContract(bn2hex(a))` followed by
`{...cell, abi: abi[bn2hex(cell.selector)]}`: the ABI lookup at address `a`
for cell `c`. -/
def abiAt (env : Env) (a : Nat) (c : Cell) : Except Unit SheetCell :=
  match env.getAbiForContract a with
  | .error e => .error e
  | .ok abiMap => .ok { toCell := c, abi := abiMap c.selector }

/-- Lines 162-175: one cell of the second `.map`, resolving the effective
contract address and fetching its ABI. -/
def attachAbi (env : Env) (array : List Cell) (c : Cell) : Except Unit SheetCell :=
  match resolvedContractAddress array c with
  | .error e => .error e
  | .ok a => abiAt env a c

/-- Lines 153-176: `Promise.all(grid.map(attachAbi))` over the grid array
itself (the third argument `array` of the js `.map` callback is the array
being mapped). -/
def attachAbis (env : Env) (array : List Cell) : Except Unit (List SheetCell) :=
  mapE (attachAbi env array) array

/-- Line 102: `onsheet.sheets.find(sheet => sheet.address === address)`. -/
def sheetFor (st : AppState) (addr : Addr) : Option Sheet :=
  st.sheets.find? (fun s => s.address == addr)

/-- Line 121: truthiness of `sheet?.calldata` — the fetch of cells is skipped
(resolved with `[]`) iff the sheet is known and carries a calldata payload. -/
def skipOf (sheet : Option Sheet) : Bool :=
  match sheet with
  | some s => s.calldata.isSome
  | none => false

/-- Lines 120-139: the settled outcome of the `cells` promise — `[]` for a
not-yet-deployed sheet, otherwise `renderCells` followed by a `getCell` for
each rendered cell, merged by spread. -/
def fetchCells (env : Env) (skip : Bool) : Except Unit (List Cell) :=
  if skip then .ok []
  else
    match env.renderCells with
    | .error e => .error e
    | .ok rs => mapE (fun r => (env.getCell r.id).map (mergeCell r)) rs

/-- Lines 140-177: the settled outcome of the whole cell pipeline — fetch,
grid completion, address resolution and ABI attachment. -/
def gridOutcome (env : Env) (skip : Bool) : Except Unit (List SheetCell) :=
  match fetchCells env skip with
  | .error e => .error e
  | .ok cells => attachAbis env (buildGrid cells)

/-- The fixed template literal of lines 186-189 (`${address}` interpolated). -/
def errorMessage (addr : Addr) : String :=
  "Error: Starksheet cannot render sheet at address " ++ addr ++
    "\n              <br />\n              <br />\n              Double check address or create a new sheet by clicking on the + button"

/-- Lines 104-112: the two metadata calls, both issued when the address is
not a known sheet. -/
def metaTrace (addr : Addr) (found : Bool) : List CallEvent :=
  if found then []
  else [.callContract addr "name", .callContract addr "symbol"]

/-- The contract calls the main cell chain issues: `renderCells`, then (once it
fulfils) a `getCell` per rendered cell, then (for each grid cell whose address
resolution succeeds) a `getAbi` at the resolved address. -/
def mainTrace (env : Env) (skip : Bool) : List CallEvent :=
  (if skip then []
   else
     .renderCells ::
       (match env.renderCells with
        | .ok rs => rs.map (fun r => .getCell r.id)
        | .error _ => []))
  ++ (match fetchCells env skip with
      | .ok cells =>
        let array := buildGrid cells
        array.filterMap (fun c =>
          match resolvedContractAddress array c with
          | .ok a => some (.getAbi a)
          | .error _ => none)
      | .error _ => [])

/-- The observable result of one invocation of `load`: the shared state when
every started promise chain has settled, the issued calls, and whether a
rejection escaped unhandled (the metadata chain of lines 104-118 has no
`catch`). -/
structure LoadResult where
  state : AppState
  trace : List CallEvent
  unhandled : Bool

/-- Lines 77-81 guard: `appStatus.sheets[addr] && appStatus.sheets[addr].loading`. -/
def statusLoading (st : AppState) (a : Addr) : Bool :=
  match st.statuses a with
  | some s => s.loading
  | none => false

/-- Lines 88-91 guard: `addr in values && values[addr].length !== 0`. -/
def hasNonEmptyValues (st : AppState) (a : Addr) : Bool :=
  match st.values a with
  | some v => !v.isEmpty
  | none => false

/-- Lines 103-119: the floating metadata chain.  It has no `catch` attached:
`appendSheet` runs only if both calls fulfil, and a rejection escapes as an
unhandled promise rejection (the `Bool` of the pair). -/
def metaSettle (env : Env) (addr : Addr) (st2 : AppState) : AppState × Bool :=
  match sheetFor st2 addr with
  | some _ => (st2, false)
  | none =>
    match env.nameCall, env.symbolCall with
    | .ok n, .ok s =>
      (appendSheet st2
        { name := env.hex2str n, symbol := env.hex2str s,
          address := addr, calldata := none }, false)
    | _, _ => (st2, true)

/-- The two intermediate `message` updates inside the chain (lines 125-127 and
142-144), applied when the promise they follow fulfils.  The final `finally`
update later overwrites all three status fields. -/
def midStatus (env : Env) (addr : Addr) (skip : Bool) (st3 : AppState) : AppState :=
  match fetchCells env skip with
  | .ok _ =>
    updateSheetStatus
      (if skip then st3
       else
        match env.renderCells with
        | .ok _ => updateSheetStatus st3 addr { message := some "Fetching cells metadata" }
        | .error _ => st3)
      addr { message := some "Finalizing sheet data" }
  | .error _ =>
    if skip then st3
    else
      match env.renderCells with
      | .ok _ => updateSheetStatus st3 addr { message := some "Fetching cells metadata" }
      | .error _ => st3

/-- Lines 178-192: the success handler stores the grid under the sheet address;
the catch handler navigates to `/` and sets the final message.  The catch
handler's `error = true` assignment hits its own parameter named `error`,
which shadows the `let error = false` of line 96, so the outer flag is not
touched here. -/
def settleChain (env : Env) (addr : Addr) (skip : Bool) (st5 : AppState) :
    AppState × String :=
  match gridOutcome env skip with
  | .ok grid =>
    ({ st5 with values := fun a => if a = addr then some grid else st5.values a }, "")
  | .error _ => ({ st5 with route := "/" }, errorMessage addr)

/-- Lines 193-199: the `finally` handler.  It reads the outer `error` flag of
line 96, which is still `false` — the catch handler only ever assigned its
own shadowing parameter — so the `error` field written here is always
`false`. -/
def finalizeLoad (addr : Addr) (settled : AppState × String) : AppState :=
  updateSheetStatus settled.1 addr
    { loading := some false, error := some false, message := some settled.2 }

/-- Lines 96-199: the body of `load` past the early-return guards: the floating
metadata chain, the cell chain with its intermediate status messages, its
success/catch settlement and the `finally` update, together with the trace
of issued calls. -/
def loadCore (env : Env) (addr : Addr) (st2 : AppState) : LoadResult :=
  ⟨finalizeLoad addr
      (settleChain env addr (skipOf (sheetFor st2 addr))
        (midStatus env addr (skipOf (sheetFor st2 addr)) (metaSettle env addr st2).1)),
    metaTrace addr (sheetFor st2 addr).isSome ++
      mainTrace env (skipOf (sheetFor st2 addr)),
    (metaSettle env addr st2).2⟩

/-- Lines 83-101: the two status updates performed before the chains start
(`{loading: true, error: false}` then `{message: "Rendering grid values"}`). -/
def preStatus (st : AppState) (addr : Addr) : AppState :=
  updateSheetStatus
    (updateSheetStatus st addr { loading := some true, error := some false })
    addr { message := some "Rendering grid values" }

/-- Lines 65-200: the `load` callback.  `hasContract` is the truthiness of the
`contract` object from `useSheetContract(address)`.  The cached-values guard
of lines 88-91 reads `values`, which the status update of lines 83-86 does
not touch, so it is checked against the incoming state. -/
def load (env : Env) (hasContract : Bool) (addr : Addr) (st : AppState) : LoadResult :=
  if addr = "" then ⟨st, [], false⟩
  else if hasContract = false then ⟨st, [], false⟩
  else if statusLoading st addr then ⟨st, [], false⟩
  else if hasNonEmptyValues st addr then
    ⟨updateSheetStatus
        (updateSheetStatus st addr { loading := some true, error := some false })
        addr { loading := some false }, [], false⟩
  else
    loadCore env addr (preStatus st addr)

/-- Lines 267-272 of the render: the cell shown at `rowIndex`, `colIndex` is
`cells[colIndex + N_COL * rowIndex]`. -/
def renderedCellAt (cells : List SheetCell) (rowIndex colIndex : Nat) : Option SheetCell :=
  cells.get? (colIndex + N_COL * rowIndex)

/-- The `callContract` events of a trace (the only calls the metadata chain
issues; the cell chain goes through the `contract` and ABI collaborators). -/
def isCallContract : CallEvent → Bool
  | .callContract _ _ => true
  | _ => false

/-! ### Concrete environments and states used to instantiate the theorems -/

/-- A benign environment: all collaborators fulfil. -/
def env0 : Env :=
  { nameCall := .ok 0, symbolCall := .ok 0, renderCells := .ok [],
    getCell := fun _ => .ok (defaultCellData 0),
    getAbiForContract := fun _ => .ok (fun _ => none),
    hex2str := fun _ => "S" }

/-- An environment whose `renderCells` and metadata calls all reject. -/
def envFail : Env :=
  { env0 with nameCall := .error (), symbolCall := .error (),
              renderCells := .error () }

/-- An environment where only the `name` metadata call rejects. -/
def envNameFail : Env := { env0 with nameCall := .error () }

/-- An environment rendering one cell whose contract address `300` lies between
`GRID_SIZE` and `RC_BOUND`: an out-of-range grid reference. -/
def envOutOfRange : Env :=
  { env0 with
    renderCells := .ok [{ id := 0, owner := 0, value := 7, error := false }],
    getCell := fun _ => .ok { contractAddress := 300, selector := 0, calldata := [] } }

/-- The empty shared state. -/
def st0 : AppState :=
  { sheets := [], statuses := fun _ => none, values := fun _ => none, route := "" }

/-- A state in which sheet `0x1` is already flagged as loading. -/
def stLoading : AppState :=
  { st0 with statuses := fun a =>
      if a = "0x1" then some { loading := true, error := false, message := "" } else none }

/-- A state in which `values` already holds a non-empty cell array for `0x1`. -/
def stCached : AppState :=
  { st0 with values := fun a =>
      if a = "0x1" then some [{ toCell := defaultCell 0, abi := none }] else none }

/-- A concrete cell referencing grid index 1 (contract address 1 < RC_BOUND). -/
def cellRef : Cell :=
  { id := 0, owner := 0, value := 55, error := false,
    contractAddress := 1, selector := 0, calldata := [] }

/-- A merged cell whose contract address 300 is between GRID_SIZE and RC_BOUND. -/
def cellOutOfRange : Cell :=
  { id := 0, owner := 0, value := 7, error := false,
    contractAddress := 300, selector := 0, calldata := [] }

/-! ### Frame lemmas for the state-update helpers -/

@[simp] theorem updateSheetStatus_values (st : AppState) (addr : Addr) (u : StatusUpdate) :
    (updateSheetStatus st addr u).values = st.values := rfl

@[simp] theorem updateSheetStatus_route (st : AppState) (addr : Addr) (u : StatusUpdate) :
    (updateSheetStatus st addr u).route = st.route := rfl

@[simp] theorem updateSheetStatus_sheets (st : AppState) (addr : Addr) (u : StatusUpdate) :
    (updateSheetStatus st addr u).sheets = st.sheets := rfl

@[simp] theorem appendSheet_values (st : AppState) (s : Sheet) :
    (appendSheet st s).values = st.values := rfl

@[simp] theorem appendSheet_route (st : AppState) (s : Sheet) :
    (appendSheet st s).route = st.route := rfl

@[simp] theorem appendSheet_statuses (st : AppState) (s : Sheet) :
    (appendSheet st s).statuses = st.statuses := rfl

@[simp] theorem sheetFor_update (st : AppState) (addr a : Addr) (u : StatusUpdate) :
    sheetFor (updateSheetStatus st addr u) a = sheetFor st a := rfl

@[simp] theorem sheetFor_pre (st : AppState) (addr a : Addr) :
    sheetFor (preStatus st addr) a = sheetFor st a := rfl

@[simp] theorem preStatus_values (st : AppState) (addr : Addr) :
    (preStatus st addr).values = st.values := rfl

@[simp] theorem preStatus_route (st : AppState) (addr : Addr) :
    (preStatus st addr).route = st.route := rfl

@[simp] theorem preStatus_sheets (st : AppState) (addr : Addr) :
    (preStatus st addr).sheets = st.sheets := rfl

theorem updateSheetStatus_read_self (st : AppState) (addr : Addr) (u : StatusUpdate) :
    (updateSheetStatus st addr u).statuses addr =
      some (applyUpdate ((st.statuses addr).getD defaultStatus) u) := by
  simp [updateSheetStatus]

theorem metaSettle_values (env : Env) (addr : Addr) (st : AppState) :
    (metaSettle env addr st).1.values = st.values := by
  unfold metaSettle
  cases sheetFor st addr with
  | some s => rfl
  | none => cases env.nameCall <;> cases env.symbolCall <;> rfl

theorem metaSettle_route (env : Env) (addr : Addr) (st : AppState) :
    (metaSettle env addr st).1.route = st.route := by
  unfold metaSettle
  cases sheetFor st addr with
  | some s => rfl
  | none => cases env.nameCall <;> cases env.symbolCall <;> rfl

theorem metaSettle_statuses (env : Env) (addr : Addr) (st : AppState) :
    (metaSettle env addr st).1.statuses = st.statuses := by
  unfold metaSettle
  cases sheetFor st addr with
  | some s => rfl
  | none => cases env.nameCall <;> cases env.symbolCall <;> rfl

theorem midStatus_values (env : Env) (addr : Addr) (skip : Bool) (st : AppState) :
    (midStatus env addr skip st).values = st.values := by
  unfold midStatus
  cases fetchCells env skip <;> cases skip <;> cases env.renderCells <;> simp

theorem midStatus_route (env : Env) (addr : Addr) (skip : Bool) (st : AppState) :
    (midStatus env addr skip st).route = st.route := by
  unfold midStatus
  cases fetchCells env skip <;> cases skip <;> cases env.renderCells <;> simp

theorem midStatus_sheets (env : Env) (addr : Addr) (skip : Bool) (st : AppState) :
    (midStatus env addr skip st).sheets = st.sheets := by
  unfold midStatus
  cases fetchCells env skip <;> cases skip <;> cases env.renderCells <;> simp

theorem settleChain_error (env : Env) (addr : Addr) (skip : Bool) (st5 : AppState)
    {e : Unit} (hg : gridOutcome env skip = .error e) :
    settleChain env addr skip st5 = ({ st5 with route := "/" }, errorMessage addr) := by
  simp [settleChain, hg]

theorem settleChain_ok (env : Env) (addr : Addr) (skip : Bool) (st5 : AppState)
    {grid : List SheetCell} (hg : gridOutcome env skip = .ok grid) :
    settleChain env addr skip st5 =
      ({ st5 with values := fun a => if a = addr then some grid else st5.values a }, "") := by
  simp [settleChain, hg]

theorem finalizeLoad_statuses (addr : Addr) (settled : AppState × String) :
    (finalizeLoad addr settled).statuses addr =
      some { loading := false, error := false, message := settled.2 } := by
  simp [finalizeLoad, updateSheetStatus_read_self, applyUpdate]

@[simp] theorem finalizeLoad_values (addr : Addr) (settled : AppState × String) :
    (finalizeLoad addr settled).values = settled.1.values := rfl

@[simp] theorem finalizeLoad_route (addr : Addr) (settled : AppState × String) :
    (finalizeLoad addr settled).route = settled.1.route := rfl

@[simp] theorem finalizeLoad_sheets (addr : Addr) (settled : AppState × String) :
    (finalizeLoad addr settled).sheets = settled.1.sheets := rfl

theorem load_core_path (env : Env) (addr : Addr) (st : AppState)
    (h1 : addr ≠ "") (h2 : statusLoading st addr = false)
    (h3 : hasNonEmptyValues st addr = false) :
    load env true addr st = loadCore env addr (preStatus st addr) := by
  simp [load, h1, h2, h3]

/-! ### Lemmas about `mapE`, the grid and the traces -/

theorem mapE_ok_length {α β : Type} (f : α → Except Unit β) :
    ∀ {l : List α} {l' : List β}, mapE f l = .ok l' → l'.length = l.length := by
  intro l
  induction l with
  | nil => intro l' h; cases h; rfl
  | cons a as ih =>
    intro l' h
    unfold mapE at h
    cases hfa : f a with
    | error e => rw [hfa] at h; cases h
    | ok b =>
      rw [hfa] at h
      cases hrest : mapE f as with
      | error e => rw [hrest] at h; cases h
      | ok bs =>
        rw [hrest] at h
        cases h
        simp [ih hrest]

theorem mapE_error_of_mem {α β : Type} (f : α → Except Unit β) {l : List α} {x : α}
    (hx : x ∈ l) (hf : f x = .error ()) : mapE f l = .error () := by
  induction l with
  | nil => cases hx
  | cons a as ih =>
    unfold mapE
    rcases List.mem_cons.mp hx with h | h
    · subst h
      rw [hf]
    · rw [ih h]
      cases f a <;> rfl

theorem buildGrid_length (cs : List Cell) : (buildGrid cs).length = GRID_SIZE := by
  simp [buildGrid]

theorem buildGrid_get? (cs : List Cell) {i : Nat} (h : i < GRID_SIZE) :
    (buildGrid cs).get? i = some ((cellsById cs i).getD (defaultCell i)) := by
  simp [buildGrid, List.get?_eq_getElem?, List.getElem?_map, List.getElem?_range, h]

theorem cellsById_id : ∀ {cs : List Cell} {i : Nat} {c : Cell},
    cellsById cs i = some c → c.id = i := by
  intro cs
  induction cs with
  | nil => intro i c h; cases h
  | cons a as ih =>
    intro i c h
    unfold cellsById at h
    cases hrest : cellsById as i with
    | some c' => rw [hrest] at h; cases h; exact ih hrest
    | none =>
      rw [hrest] at h
      by_cases hid : a.id = i
      · rw [if_pos hid] at h; cases h; exact hid
      · rw [if_neg hid] at h; cases h

theorem cellsById_eq_none {i : Nat} :
    ∀ {cs : List Cell}, (∀ c ∈ cs, c.id ≠ i) → cellsById cs i = none := by
  intro cs
  induction cs with
  | nil => intro _; rfl
  | cons a as ih =>
    intro h
    unfold cellsById
    rw [ih (fun c hc => h c (List.mem_cons_of_mem a hc))]
    rw [if_neg (h a (List.mem_cons_self a as))]

theorem buildGrid_id {cs : List Cell} {i : Nat} {c : Cell}
    (h : (buildGrid cs).get? i = some c) : c.id = i := by
  have hi : i < GRID_SIZE := by
    by_contra hge
    rw [List.get?_eq_none.mpr (by rw [buildGrid_length]; omega)] at h
    cases h
  rw [buildGrid_get? cs hi] at h
  cases hby : cellsById cs i with
  | some c' => rw [hby] at h; simp at h; subst h; exact cellsById_id hby
  | none => rw [hby] at h; simp at h; subst h; rfl

theorem defaultCell_id (i : Nat) : (defaultCell i).id = i := rfl

theorem gridOutcome_length {env : Env} {skip : Bool} {grid : List SheetCell}
    (h : gridOutcome env skip = .ok grid) : grid.length = GRID_SIZE := by
  unfold gridOutcome at h
  cases hf : fetchCells env skip with
  | error e => rw [hf] at h; cases h
  | ok cells =>
    rw [hf] at h
    exact (mapE_ok_length _ h).trans (buildGrid_length cells)

theorem mainTrace_no_callContract (env : Env) (skip : Bool) :
    (mainTrace env skip).filter isCallContract = [] := by
  unfold mainTrace
  rw [List.filter_append, List.filter_eq_nil_iff.mpr, List.filter_eq_nil_iff.mpr, List.nil_append]
  · intro e he
    cases hf : fetchCells env skip with
    | error himp => rw [hf] at he; cases he
    | ok cells =>
      rw [hf] at he
      simp only [List.mem_filterMap] at he
      obtain ⟨c, _, hc⟩ := he
      cases hres : resolvedContractAddress (buildGrid cells) c <;> rw [hres] at hc
      · cases hc
      · cases hc; simp [isCallContract]
  · intro e he
    cases skip with
    | true => cases he
    | false =>
      simp only [if_false, Bool.false_eq_true] at he
      rcases List.mem_cons.mp he with h | h
      · subst h; simp [isCallContract]
      · cases hr : env.renderCells with
        | error himp => rw [hr] at h; cases h
        | ok rs =>
          rw [hr] at h
          simp only [List.mem_map] at h
          obtain ⟨r, _, hrr⟩ := h
          subst hrr; simp [isCallContract]

theorem mainTrace_count_renderCells (env : Env) (skip : Bool) :
    (mainTrace env skip).count CallEvent.renderCells ≤ 1 := by
  unfold mainTrace
  rw [List.count_append]
  have h2 : (match fetchCells env skip with
      | .ok cells =>
        (buildGrid cells).filterMap (fun c =>
          match resolvedContractAddress (buildGrid cells) c with
          | .ok a => some (CallEvent.getAbi a)
          | .error _ => none)
      | .error _ => ([] : List CallEvent)).count CallEvent.renderCells = 0 := by
    rw [List.count_eq_zero]
    intro hmem
    cases hf : fetchCells env skip with
    | error e => rw [hf] at hmem; cases hmem
    | ok cells =>
      rw [hf] at hmem
      simp only [List.mem_filterMap] at hmem
      obtain ⟨c, _, hc⟩ := hmem
      cases hres : resolvedContractAddress (buildGrid cells) c <;> rw [hres] at hc <;> cases hc
  rw [h2]
  cases skip with
  | true => simp
  | false =>
    simp only [if_false, Bool.false_eq_true]
    rw [Nat.add_zero, List.count_cons_self, List.count_eq_zero.mpr, Nat.zero_add]
    intro hmem
    cases hr : env.renderCells with
    | error e => rw [hr] at hmem; cases hmem
    | ok rs =>
      rw [hr] at hmem
      simp only [List.mem_map] at hmem
      obtain ⟨r, _, hrr⟩ := hmem
      cases hrr

theorem loadCore_trace (env : Env) (addr : Addr) (st2 : AppState) :
    (loadCore env addr st2).trace =
      metaTrace addr (sheetFor st2 addr).isSome ++
        mainTrace env (skipOf (sheetFor st2 addr)) := rfl

theorem loadCore_loading_false (env : Env) (addr : Addr) (st2 : AppState) :
    ((loadCore env addr st2).state.statuses addr).map SheetStatus.loading = some false := by
  simp [loadCore, finalizeLoad_statuses]

theorem loadCore_error {env : Env} (addr : Addr) (st2 : AppState) {e : Unit}
    (hg : gridOutcome env (skipOf (sheetFor st2 addr)) = .error e) :
    (loadCore env addr st2).state.route = "/" ∧
    (loadCore env addr st2).state.statuses addr =
      some { loading := false, error := false, message := errorMessage addr } ∧
    (loadCore env addr st2).state.values = st2.values := by
  unfold loadCore
  rw [settleChain_error _ _ _ _ hg]
  refine ⟨rfl, ?_, ?_⟩
  · rw [finalizeLoad_statuses]
  · rw [finalizeLoad_values]
    show (midStatus env addr (skipOf (sheetFor st2 addr)) (metaSettle env addr st2).1).values
        = st2.values
    rw [midStatus_values, metaSettle_values]

theorem loadCore_ok {env : Env} (addr : Addr) (st2 : AppState) {grid : List SheetCell}
    (hg : gridOutcome env (skipOf (sheetFor st2 addr)) = .ok grid) :
    (loadCore env addr st2).state.route = st2.route ∧
    (loadCore env addr st2).state.statuses addr =
      some { loading := false, error := false, message := "" } ∧
    (loadCore env addr st2).state.values =
      fun a => if a = addr then some grid else st2.values a := by
  unfold loadCore
  rw [settleChain_ok _ _ _ _ hg]
  refine ⟨?_, ?_, ?_⟩
  · rw [finalizeLoad_route]
    show (midStatus env addr (skipOf (sheetFor st2 addr)) (metaSettle env addr st2).1).route
        = st2.route
    rw [midStatus_route, metaSettle_route]
  · rw [finalizeLoad_statuses]
  · rw [finalizeLoad_values]
    funext a
    show (if a = addr then some grid
      else (midStatus env addr (skipOf (sheetFor st2 addr)) (metaSettle env addr st2).1).values a)
        = if a = addr then some grid else st2.values a
    rw [midStatus_values, metaSettle_values]

theorem loadCore_sheets_found {env : Env} {addr : Addr} {st2 : AppState} {sh : Sheet}
    (hf : sheetFor st2 addr = some sh) :
    (loadCore env addr st2).state.sheets = st2.sheets := by
  unfold loadCore
  have hms : (metaSettle env addr st2).1 = st2 := by unfold metaSettle; rw [hf]
  rw [finalizeLoad_sheets]
  cases hg : gridOutcome env (skipOf (sheetFor st2 addr)) with
  | error e =>
    rw [settleChain_error _ _ _ _ hg]
    show (midStatus env addr (skipOf (sheetFor st2 addr)) (metaSettle env addr st2).1).sheets
        = st2.sheets
    rw [midStatus_sheets, hms]
  | ok grid =>
    rw [settleChain_ok _ _ _ _ hg]
    show (midStatus env addr (skipOf (sheetFor st2 addr)) (metaSettle env addr st2).1).sheets
        = st2.sheets
    rw [midStatus_sheets, hms]

theorem count_eq_zero_of_filter_nil {l : List CallEvent} {e : CallEvent}
    (h : l.filter isCallContract = []) (he : isCallContract e = true) : l.count e = 0 := by
  rw [List.count_eq_zero]
  intro hmem
  have : e ∈ l.filter isCallContract := List.mem_filter.mpr ⟨hmem, he⟩
  rw [h] at this
  cases this

theorem loadCore_sheets_appended {env : Env} {addr : Addr} {st2 : AppState} {n s : Nat}
    (hf : sheetFor st2 addr = none)
    (hn : env.nameCall = .ok n) (hs : env.symbolCall = .ok s) :
    (loadCore env addr st2).state.sheets =
      st2.sheets ++ [{ name := env.hex2str n, symbol := env.hex2str s,
                       address := addr, calldata := none }] := by
  unfold loadCore
  have hms : (metaSettle env addr st2).1 =
      appendSheet st2 { name := env.hex2str n, symbol := env.hex2str s,
                        address := addr, calldata := none } := by
    unfold metaSettle; rw [hf, hn, hs]
  rw [finalizeLoad_sheets]
  cases hg : gridOutcome env (skipOf (sheetFor st2 addr)) with
  | error e =>
    rw [settleChain_error _ _ _ _ hg]
    show (midStatus env addr (skipOf (sheetFor st2 addr)) (metaSettle env addr st2).1).sheets
        = _
    rw [midStatus_sheets, hms]; rfl
  | ok grid =>
    rw [settleChain_ok _ _ _ _ hg]
    show (midStatus env addr (skipOf (sheetFor st2 addr)) (metaSettle env addr st2).1).sheets
        = _
    rw [midStatus_sheets, hms]; rfl

theorem loadCore_values (env : Env) (addr : Addr) (st2 : AppState) (a : Addr) :
    (loadCore env addr st2).state.values a = st2.values a ∨
    (a = addr ∧ ∃ grid, gridOutcome env (skipOf (sheetFor st2 addr)) = .ok grid ∧
      (loadCore env addr st2).state.values a = some grid) := by
  cases hg : gridOutcome env (skipOf (sheetFor st2 addr)) with
  | error e =>
    left
    rw [(loadCore_error addr st2 hg).2.2]
  | ok grid =>
    have hv := (loadCore_ok addr st2 hg).2.2
    by_cases ha : a = addr
    · right
      refine ⟨ha, grid, rfl, ?_⟩
      rw [show (loadCore env addr st2).state.values a =
        ((loadCore env addr st2).state.values) a from rfl, hv]
      simp [ha]
    · left
      rw [show (loadCore env addr st2).state.values a =
        ((loadCore env addr st2).state.values) a from rfl, hv]
      simp [ha]

theorem attachAbis_error_of_out_of_range (env : Env) {cells : List Cell} {c : Cell}
    (hc : c ∈ buildGrid cells)
    (hlo : GRID_SIZE ≤ c.contractAddress) (hhi : c.contractAddress < RC_BOUND) :
    attachAbis env (buildGrid cells) = .error () := by
  apply mapE_error_of_mem _ hc
  unfold attachAbi resolvedContractAddress
  rw [if_pos hhi, List.get?_eq_none.mpr (by rw [buildGrid_length]; exact hlo)]

/-! ### Claim theorems -/

/-- C6: if a sheet status exists for the address and its loading flag is true,
`load` returns immediately: it issues no contract call, and the shared state
is left completely unchanged, so two loads for the same address are never in
flight concurrently. -/
theorem loading_guard_returns (env : Env) (hasContract : Bool) (addr : Addr)
    (st : AppState) (s : SheetStatus)
    (hs : st.statuses addr = some s) (hl : s.loading = true) :
    load env hasContract addr st = ⟨st, [], false⟩ := by
  have h : statusLoading st addr = true := by
    unfold statusLoading; rw [hs]; exact hl
  unfold load
  by_cases h1 : addr = ""
  · rw [if_pos h1]
  · rw [if_neg h1]
    by_cases h2 : hasContract = false
    · rw [if_pos h2]
    · rw [if_neg h2, if_pos h]

/-- Witness for C6 at a concrete state whose status for `0x1` is loading. -/
theorem loading_guard_returns_witness :
    stLoading.statuses "0x1" = some { loading := true, error := false, message := "" } ∧
    load env0 true "0x1" stLoading = ⟨stLoading, [], false⟩ :=
  ⟨by decide,
    loading_guard_returns env0 true "0x1" stLoading
      { loading := true, error := false, message := "" } (by decide) rfl⟩

/-- C7: if the shared values map already holds a non-empty cell array for the
address, `load` (past its other guards) sets the loading flag back to false
and returns: it issues no contract call and leaves the stored cell arrays of
every address unchanged. -/
theorem cached_values_short_circuit (env : Env) (addr : Addr) (st : AppState)
    (h1 : addr ≠ "") (h2 : statusLoading st addr = false)
    (h3 : hasNonEmptyValues st addr = true) :
    ((load env true addr st).state.statuses addr).map SheetStatus.loading = some false ∧
    (load env true addr st).state.values = st.values ∧
    (load env true addr st).trace = [] := by
  unfold load
  rw [if_neg h1, if_neg (by simp), if_neg (by rw [h2]; exact Bool.false_ne_true),
    if_pos h3]
  refine ⟨?_, rfl, rfl⟩
  simp [updateSheetStatus_read_self, applyUpdate]

/-- Witness for C7 at a concrete state caching one cell for `0x1`. -/
theorem cached_values_short_circuit_witness :
    ("0x1" : Addr) ≠ "" ∧ statusLoading stCached "0x1" = false ∧
    hasNonEmptyValues stCached "0x1" = true ∧
    ((load env0 true "0x1" stCached).state.statuses "0x1").map SheetStatus.loading =
      some false ∧
    (load env0 true "0x1" stCached).state.values = stCached.values :=
  have h := cached_values_short_circuit env0 "0x1" stCached (by decide) rfl rfl
  ⟨by decide, rfl, rfl, h.1, h.2.1⟩

/-- C8: a grid index no fetched cell claims is filled with the placeholder
default cell: id `i`, owner 0, value 0, contract address `RC_BOUND`,
selector 0 and empty calldata; and since `RC_BOUND` is not below `RC_BOUND`,
address resolution treats it as a literal address, never as a reference. -/
theorem sparse_default_cell (cells : List Cell) (i : Nat)
    (h1 : i < GRID_SIZE) (h2 : ∀ c ∈ cells, c.id ≠ i) :
    (buildGrid cells).get? i = some (defaultCell i) ∧
    defaultCell i = { id := i, owner := 0, value := 0, error := false,
                      contractAddress := RC_BOUND, selector := 0, calldata := [] } ∧
    ∀ array : List Cell, resolvedContractAddress array (defaultCell i) = .ok RC_BOUND := by
  refine ⟨?_, rfl, ?_⟩
  · rw [buildGrid_get? cells h1, cellsById_eq_none h2]; rfl
  · intro array
    unfold resolvedContractAddress
    rw [if_neg (by simp [defaultCell, mergeCell, defaultRenderedCell, defaultCellData])]
    rfl

/-- Witness for C8 at grid index 3 with a fetched cell list naming only id 0. -/
theorem sparse_default_cell_witness :
    3 < GRID_SIZE ∧
    (buildGrid [defaultCell 0]).get? 3 = some (defaultCell 3) ∧
    resolvedContractAddress [] (defaultCell 3) = .ok RC_BOUND :=
  have h := sparse_default_cell [defaultCell 0] 3 (by decide)
    (by intro c hc; simp at hc; subst hc; decide)
  ⟨by decide, h.1, h.2.2 []⟩

/-- C9: every invocation of `load` that starts the main cell-fetch chain ends,
whether the chain succeeds or fails, with a status update setting the
loading flag to false: the flag set at the start never remains true. -/
theorem loading_cleared_on_settle (env : Env) (addr : Addr) (st : AppState)
    (h1 : addr ≠ "") (h2 : statusLoading st addr = false)
    (h3 : hasNonEmptyValues st addr = false) :
    ((load env true addr st).state.statuses addr).map SheetStatus.loading = some false := by
  rw [load_core_path env addr st h1 h2 h3]
  exact loadCore_loading_false env addr (preStatus st addr)

/-- Witness for C9: a load of `0x1` from the empty state under an environment
whose cell fetch rejects still ends with the loading flag false. -/
theorem loading_cleared_on_settle_witness :
    ("0x1" : Addr) ≠ "" ∧ statusLoading st0 "0x1" = false ∧
    hasNonEmptyValues st0 "0x1" = false ∧
    ((load envFail true "0x1" st0).state.statuses "0x1").map SheetStatus.loading =
      some false :=
  ⟨by decide, rfl, rfl, loading_cleared_on_settle envFail "0x1" st0 (by decide) rfl rfl⟩

/-- C2: a cell array stored by `load` (under any environment and any starting
state, including an empty or sparse fetched cell list) always has exactly
`GRID_SIZE` entries, and the view renders at row `r`, column `c` the entry
at the row-major index `c + N_COL * r`; values of other addresses are never
touched. -/
theorem stored_grid_row_major (env : Env) (hasContract : Bool) (addr a : Addr)
    (st : AppState) :
    (load env hasContract addr st).state.values a = st.values a ∨
    (a = addr ∧ ∃ cs, (load env hasContract addr st).state.values a = some cs ∧
      cs.length = GRID_SIZE ∧
      ∀ r c, renderedCellAt cs r c = cs.get? (c + N_COL * r)) := by
  unfold load
  by_cases h1 : addr = ""
  · rw [if_pos h1]; left; rfl
  · rw [if_neg h1]
    by_cases h2 : hasContract = false
    · rw [if_pos h2]; left; rfl
    · rw [if_neg h2]
      by_cases h3 : statusLoading st addr = true
      · rw [if_pos h3]; left; rfl
      · rw [if_neg h3]
        by_cases h4 : hasNonEmptyValues st addr = true
        · rw [if_pos h4]; left; rfl
        · rw [if_neg h4]
          rcases loadCore_values env addr (preStatus st addr) a with h | ⟨ha, grid, hg, hv⟩
          · left; rw [h]; rfl
          · right
            exact ⟨ha, grid, hv, gridOutcome_length hg, fun r c => rfl⟩

/-- C4: when the main cell-fetch chain fails, `load` navigates to the root
route `/`, the final status message is the fixed explanatory message naming
the sheet address, and no fetch is retried: `renderCells` and each metadata
entrypoint occur at most once in the trace. -/
theorem failure_navigates_home (env : Env) (addr : Addr) (st : AppState)
    (h1 : addr ≠ "") (h2 : statusLoading st addr = false)
    (h3 : hasNonEmptyValues st addr = false)
    (h4 : gridOutcome env (skipOf (sheetFor st addr)) = .error ()) :
    (load env true addr st).state.route = "/" ∧
    (load env true addr st).state.statuses addr =
      some { loading := false, error := false, message := errorMessage addr } ∧
    (load env true addr st).trace.count CallEvent.renderCells ≤ 1 ∧
    (load env true addr st).trace.count (CallEvent.callContract addr "name") ≤ 1 ∧
    (load env true addr st).trace.count (CallEvent.callContract addr "symbol") ≤ 1 := by
  rw [load_core_path env addr st h1 h2 h3]
  have h4' : gridOutcome env (skipOf (sheetFor (preStatus st addr) addr)) = .error () := by
    rw [sheetFor_pre]; exact h4
  have he := loadCore_error addr (preStatus st addr) h4'
  refine ⟨he.1, he.2.1, ?_, ?_, ?_⟩
  · rw [loadCore_trace, List.count_append]
    have hm : (metaTrace addr (sheetFor (preStatus st addr) addr).isSome).count
        CallEvent.renderCells = 0 := by
      unfold metaTrace
      cases (sheetFor (preStatus st addr) addr).isSome <;> simp
    rw [hm, Nat.zero_add]
    exact mainTrace_count_renderCells env _
  · rw [loadCore_trace, List.count_append,
      @count_eq_zero_of_filter_nil
        (mainTrace env (skipOf (sheetFor (preStatus st addr) addr)))
        (CallEvent.callContract addr "name")
        (mainTrace_no_callContract env _) rfl, Nat.add_zero]
    unfold metaTrace
    cases (sheetFor (preStatus st addr) addr).isSome <;> simp [List.count_cons]
  · rw [loadCore_trace, List.count_append,
      @count_eq_zero_of_filter_nil
        (mainTrace env (skipOf (sheetFor (preStatus st addr) addr)))
        (CallEvent.callContract addr "symbol")
        (mainTrace_no_callContract env _) rfl, Nat.add_zero]
    unfold metaTrace
    cases (sheetFor (preStatus st addr) addr).isSome <;> simp [List.count_cons]

/-- Witness for C4: loading `0x1` from the empty state with a rejecting
`renderCells` navigates home and writes the fixed message. -/
theorem failure_navigates_home_witness :
    gridOutcome envFail (skipOf (sheetFor st0 "0x1")) = .error () ∧
    (load envFail true "0x1" st0).state.route = "/" ∧
    (load envFail true "0x1" st0).state.statuses "0x1" =
      some { loading := false, error := false, message := errorMessage "0x1" } :=
  have h := failure_navigates_home envFail "0x1" st0 (by decide) rfl rfl rfl
  ⟨rfl, h.1, h.2.1⟩

/-- C3 (code bug in the source): a failing fetch chain settles with the status
`error` field still `false` — the catch handler's parameter `error` shadows
the outer `let error = false` of line 96, so the `finally` update writes
`error: false` even though the chain failed (the route change and the error
message show the catch branch did run); and a rejection of the metadata
name/symbol chain is not caught at all (it escapes as an unhandled
rejection), so failures are not all caught once. -/
theorem error_flag_never_set :
    (load envFail true "0x1" st0).state.route = "/" ∧
    (load envFail true "0x1" st0).state.statuses "0x1" =
      some { loading := false, error := false, message := errorMessage "0x1" } ∧
    (load envFail true "0x1" st0).unhandled = true := by
  refine ⟨?_, ?_, ?_⟩ <;> rfl

/-- C1: for a cell of the grid array whose contract address is below
`RC_BOUND`, the address handed to the ABI lookup is the computed value of
the grid entry at index `contractAddress` — and that entry is the cell whose
id equals the index; at or above `RC_BOUND` the cell's own contract address
is used literally. -/
theorem abi_lookup_indirection (env : Env) (cells : List Cell) (c : Cell)
    (_hc : c ∈ buildGrid cells) :
    (c.contractAddress < RC_BOUND →
      (∀ target, (buildGrid cells).get? c.contractAddress = some target →
        target.id = c.contractAddress ∧
        attachAbi env (buildGrid cells) c = abiAt env target.value c) ∧
      ((buildGrid cells).get? c.contractAddress = none →
        attachAbi env (buildGrid cells) c = .error ())) ∧
    (RC_BOUND ≤ c.contractAddress →
      attachAbi env (buildGrid cells) c = abiAt env c.contractAddress c) := by
  constructor
  · intro hlt
    constructor
    · intro target ht
      refine ⟨buildGrid_id ht, ?_⟩
      unfold attachAbi resolvedContractAddress
      rw [if_pos hlt, ht]
    · intro hnone
      unfold attachAbi resolvedContractAddress
      rw [if_pos hlt, hnone]
  · intro hge
    unfold attachAbi resolvedContractAddress
    rw [if_neg (Nat.not_lt.mpr hge)]

/-- Witness for C1: with one fetched cell whose contract address is 1, the ABI
lookup for it goes through the value of grid entry 1 (the default cell of id
1). -/
theorem abi_lookup_indirection_witness :
    cellRef ∈ buildGrid [cellRef] ∧
    cellRef.contractAddress < RC_BOUND ∧
    (buildGrid [cellRef]).get? cellRef.contractAddress = some (defaultCell 1) ∧
    (defaultCell 1).id = cellRef.contractAddress ∧
    attachAbi env0 (buildGrid [cellRef]) cellRef = abiAt env0 (defaultCell 1).value cellRef :=
  have hmem : cellRef ∈ buildGrid [cellRef] := by decide
  have hget : (buildGrid [cellRef]).get? cellRef.contractAddress = some (defaultCell 1) := by
    decide
  have h := ((abi_lookup_indirection env0 [cellRef] cellRef hmem).1 (by decide)).1
    (defaultCell 1) hget
  ⟨hmem, by decide, hget, h.1, h.2⟩

/-- C5 (amended): when `load` proceeds for an address that is not a known
sheet, exactly the two metadata contract calls — entrypoints `name` and
`symbol` against that address — are issued, and, provided both calls fulfil,
a sheet record with the decoded name, the decoded symbol and the address is
appended; for a known address no `callContract` call is made and the sheet
list is unchanged. -/
theorem metadata_two_calls_lazy_append (env : Env) (addr : Addr) (st : AppState)
    (h1 : addr ≠ "") (h2 : statusLoading st addr = false)
    (h3 : hasNonEmptyValues st addr = false) :
    (sheetFor st addr = none →
      (load env true addr st).trace.filter isCallContract =
        [CallEvent.callContract addr "name", CallEvent.callContract addr "symbol"] ∧
      ∀ n s, env.nameCall = .ok n → env.symbolCall = .ok s →
        (load env true addr st).state.sheets =
          st.sheets ++ [{ name := env.hex2str n, symbol := env.hex2str s,
                          address := addr, calldata := none }]) ∧
    (∀ sh, sheetFor st addr = some sh →
      (load env true addr st).trace.filter isCallContract = [] ∧
      (load env true addr st).state.sheets = st.sheets) := by
  rw [load_core_path env addr st h1 h2 h3]
  constructor
  · intro hf
    have hf' : sheetFor (preStatus st addr) addr = none := by
      rw [sheetFor_pre]; exact hf
    constructor
    · rw [loadCore_trace, List.filter_append, mainTrace_no_callContract,
        List.append_nil, hf']
      rfl
    · intro n s hn hs
      rw [loadCore_sheets_appended hf' hn hs, preStatus_sheets]
  · intro sh hf
    have hf' : sheetFor (preStatus st addr) addr = some sh := by
      rw [sheetFor_pre]; exact hf
    constructor
    · rw [loadCore_trace, List.filter_append, mainTrace_no_callContract,
        List.append_nil, hf']
      rfl
    · rw [loadCore_sheets_found hf', preStatus_sheets]

/-- Witness for C5: loading unknown `0x1` under the benign environment issues
exactly the `name` and `symbol` calls and appends the decoded sheet record. -/
theorem metadata_two_calls_lazy_append_witness :
    sheetFor st0 "0x1" = none ∧
    (load env0 true "0x1" st0).trace.filter isCallContract =
      [CallEvent.callContract "0x1" "name", CallEvent.callContract "0x1" "symbol"] ∧
    (load env0 true "0x1" st0).state.sheets =
      [{ name := "S", symbol := "S", address := "0x1", calldata := none }] := by
  have h := metadata_two_calls_lazy_append env0 "0x1" st0 (by decide) rfl rfl
  refine ⟨rfl, (h.1 rfl).1, ?_⟩
  rw [(h.1 rfl).2 0 0 rfl rfl]
  rfl

set_option maxRecDepth 4000

/-- C5 counterexample: with address `0x1` unknown and the `name` metadata call
rejecting, `load` still runs for the unknown address (both metadata calls
are issued, the cell chain even succeeds and stores the grid) but no sheet
record is appended — refuting the claim's unconditional "a new sheet record
with the decoded name, symbol and the address is appended"; the rejection
escapes unhandled. -/
theorem metadata_append_counterexample :
    sheetFor st0 "0x1" = none ∧
    (load envNameFail true "0x1" st0).trace.filter isCallContract =
      [CallEvent.callContract "0x1" "name", CallEvent.callContract "0x1" "symbol"] ∧
    (load envNameFail true "0x1" st0).state.sheets = [] ∧
    (load envNameFail true "0x1" st0).unhandled = true := by
  refine ⟨rfl, ?_, ?_, ?_⟩ <;> rfl

/-- C10: if the fetched cells yield a grid containing a cell whose contract
address lies in `[GRID_SIZE, RC_BOUND)`, the indirection indexes the grid
out of bounds, the chain takes its error branch (route reset to `/`) and no
cell array is stored for any address; and an in-bounds indirection (address
below `GRID_SIZE`) never produces this failure on a full-size grid. -/
theorem out_of_range_indirection (env : Env) (addr : Addr) (st : AppState)
    (cells : List Cell) (c : Cell)
    (h1 : addr ≠ "") (h2 : statusLoading st addr = false)
    (h3 : hasNonEmptyValues st addr = false)
    (h4 : fetchCells env (skipOf (sheetFor st addr)) = .ok cells)
    (h5 : c ∈ buildGrid cells)
    (h6 : GRID_SIZE ≤ c.contractAddress) (h7 : c.contractAddress < RC_BOUND) :
    (load env true addr st).state.values = st.values ∧
    (load env true addr st).state.route = "/" ∧
    (∀ (array : List Cell) (c' : Cell), array.length = GRID_SIZE →
      c'.contractAddress < GRID_SIZE →
      ∃ v, resolvedContractAddress array c' = .ok v) := by
  have hg : gridOutcome env (skipOf (sheetFor st addr)) = .error () := by
    unfold gridOutcome
    rw [h4]
    exact attachAbis_error_of_out_of_range env h5 h6 h7
  rw [load_core_path env addr st h1 h2 h3]
  have hg' : gridOutcome env (skipOf (sheetFor (preStatus st addr) addr)) = .error () := by
    rw [sheetFor_pre]; exact hg
  have he := loadCore_error addr (preStatus st addr) hg'
  refine ⟨?_, he.1, ?_⟩
  · rw [he.2.2, preStatus_values]
  · intro array c' hlen hlt
    have hlt' : c'.contractAddress < array.length := by rw [hlen]; exact hlt
    refine ⟨(array.get ⟨c'.contractAddress, hlt'⟩).value, ?_⟩
    unfold resolvedContractAddress
    rw [if_pos (lt_of_lt_of_le hlt (by decide)), List.get?_eq_get hlt']

/-- Witness for C10: loading `0x1` with a single fetched cell of contract
address 300 takes the error branch and navigates home. -/
theorem out_of_range_indirection_witness :
    fetchCells envOutOfRange (skipOf (sheetFor st0 "0x1")) = .ok [cellOutOfRange] ∧
    cellOutOfRange ∈ buildGrid [cellOutOfRange] ∧
    GRID_SIZE ≤ cellOutOfRange.contractAddress ∧
    cellOutOfRange.contractAddress < RC_BOUND ∧
    (load envOutOfRange true "0x1" st0).state.route = "/" :=
  have h := out_of_range_indirection envOutOfRange "0x1" st0 [cellOutOfRange]
    cellOutOfRange (by decide) rfl rfl rfl (by decide) (by decide) (by decide)
  ⟨rfl, by decide, by decide, by decide, h.2.1⟩

end Starksheet
